import Mathlib

/-!
Verification of the coveralls-python core (src/coveralls/git.py and
src/coveralls/cli.py) as a shallow embedding in Lean 4.

External collaborators (the process environment and the VCS subprocess
facility) are modelled as explicit parameters:
 * the environment is an association list from variable names to values,
   where absence models an unset variable;
 * the VCS collaborator is an oracle mapping a command line to an outcome
   (stdout on success, or one of the two failure classes the code
   distinguishes: a non-zero exit, which `run_command` wraps into
   `CoverallsException`, and an `OSError` raised by the process facility
   itself, e.g. when the tool is absent).

Python string semantics used by the code (truthiness, `str.strip`,
`str.split`, `str.split('/', 2)`, `str.splitlines`, substring containment)
are reproduced on `List Char` so that every definition is executable by
kernel reduction.  Subprocess stdout is modelled after UTF-8 decoding; git
output lines are newline-separated.
-/

/-! ### Python string semantics -/

/-- Whitespace characters stripped by Python's `str.strip()` and used as
separators by `str.split()` (ASCII subset, which is what git output can
contain in the stripped positions). -/
def isPyWs (c : Char) : Bool :=
  c == ' ' || c == '\t' || c == '\n' || c == '\r' || c == '\x0b' || c == '\x0c'

/-- Python `s.strip()`: remove leading and trailing whitespace. -/
def pyStrip (s : String) : String :=
  ⟨((s.data.dropWhile isPyWs).reverse.dropWhile isPyWs).reverse⟩

/-- Split a character list at every character satisfying `p`, keeping empty
pieces (the semantics of splitting on a single separator). -/
def splitWhenL (p : Char → Bool) : List Char → List (List Char)
  | [] => [[]]
  | c :: cs =>
      let r := splitWhenL p cs
      if p c then [] :: r
      else
        match r with
        | [] => [[c]]
        | h :: t => (c :: h) :: t

/-- Python `s.split()` (no argument): maximal runs of non-whitespace. -/
def pyWsSplit (s : String) : List String :=
  ((splitWhenL isPyWs s.data).filter (fun t => !t.isEmpty)).map (fun t => ⟨t⟩)

/-- Python `s.splitlines()` for newline-separated text (git output). -/
def pySplitlines (s : String) : List String :=
  (splitWhenL (fun c => c == '\n') s.data).map (fun t => ⟨t⟩)

/-- Python `s.split('/', 2)[-1]`: at most two splits, last piece. -/
def pySplit2Last (s : String) : String :=
  match splitWhenL (fun c => c == '/') s.data with
  | [] => s
  | [a] => ⟨a⟩
  | [_, b] => ⟨b⟩
  | _ :: _ :: rest => ⟨List.intercalate ['/'] rest⟩

/-- Whether `pat` is an initial segment of `l`. -/
def listStartsWith : List Char → List Char → Bool
  | [], _ => true
  | _ :: _, [] => false
  | p :: ps, c :: cs => p == c && listStartsWith ps cs

/-- Whether `pat` occurs contiguously inside `l`. -/
def listHasSegment (pat : List Char) : List Char → Bool
  | [] => pat.isEmpty
  | c :: cs => listStartsWith pat (c :: cs) || listHasSegment pat cs

/-- Python `pat in s` (substring containment). -/
def pyContains (s pat : String) : Bool :=
  listHasSegment pat.data s.data

/-- Python `s.startswith(pre)`. -/
def pyStartsWith (s pre : String) : Bool :=
  listStartsWith pre.data s.data

/-- Python truthiness of an optional string: `None` and `''` are falsy. -/
def truthy : Option String → Bool
  | none => false
  | some s => !(s == "")

/-- Python `a or b` on optional strings: `a` when truthy, else `b`. -/
def pyOr (a b : Option String) : Option String :=
  if truthy a then a else b

/-! ### The process environment -/

/-- The process environment: an association list; `os.environ.get` returns
the first binding or `None`. -/
def Env := List (String × String)

/-- Python `os.environ.get(k)`. -/
def envGet (e : Env) (k : String) : Option String :=
  (List.find? (fun p => p.1 == k) e).map (fun p => p.2)

/-! ### The VCS command collaborator (`run_command`, `gitlog`) -/

/-- Outcome of one subprocess invocation, as far as the code can observe it:
decoded stdout on success; `CalledProcessError` (non-zero exit, carrying a
message) which `run_command` converts; or an `OSError` raised by
`subprocess.run` itself (tool absent, not executable, ...). -/
inductive CmdResult where
  | ok (stdout : String)
  | calledProcessError (msg : String)
  | osError (msg : String)
deriving DecidableEq

/-- Behaviour of the VCS collaborator: one outcome per command line. -/
def Vcs := List String → CmdResult

/-- Exceptions that can escape `run_command`. -/
inductive RunErr where
  | coverallsException (msg : String)
  | osError (msg : String)
deriving DecidableEq

/-- `run_command(*args)` from git.py: on success the stdout is decoded as
UTF-8 and `.strip()`-ed; a `CalledProcessError` becomes a
`CoverallsException`; an `OSError` from the process facility propagates. -/
def run_command (vcs : Vcs) (args : List String) : Except RunErr String :=
  match vcs args with
  | .ok out => .ok (pyStrip out)
  | .calledProcessError m => .error (.coverallsException m)
  | .osError m => .error (.osError m)

/-- The command line `gitlog(fmt)` invokes. -/
def gitlogArgs (fmt : String) : List String :=
  ["git", "--no-pager", "log", "-1", "--pretty=format:" ++ fmt]

/-- `gitlog(fmt)` from git.py. -/
def gitlog (vcs : Vcs) (fmt : String) : Except RunErr String :=
  run_command vcs (gitlogArgs fmt)

/-! ### Branch resolution (`get_github_branch`, `get_ci_branch`,
`get_git_branch`, `git_branch`) -/

/-- `get_github_branch()` from git.py. -/
def get_github_branch (env : Env) : Option String :=
  match envGet env "GITHUB_REF" with
  | some r =>
      if (!(r == "")) && (pyStartsWith r "refs/heads/" || pyStartsWith r "refs/tags/") then
        some (pySplit2Last r)
      else
        envGet env "GITHUB_HEAD_REF"
  | none => envGet env "GITHUB_HEAD_REF"

/-- The seven provider variables of `get_ci_branch`, in source order. -/
def ciVars : List String :=
  ["APPVEYOR_REPO_BRANCH", "BUILDKITE_BRANCH", "CI_BRANCH", "CIRCLE_BRANCH",
   "GIT_BRANCH", "TRAVIS_BRANCH", "BRANCH_NAME"]

/-- `get_ci_branch()` from git.py: a chain of Python `or`s over the seven
provider variables. -/
def get_ci_branch (env : Env) : Option String :=
  pyOr (envGet env "APPVEYOR_REPO_BRANCH")
    (pyOr (envGet env "BUILDKITE_BRANCH")
      (pyOr (envGet env "CI_BRANCH")
        (pyOr (envGet env "CIRCLE_BRANCH")
          (pyOr (envGet env "GIT_BRANCH")
            (pyOr (envGet env "TRAVIS_BRANCH")
              (envGet env "BRANCH_NAME"))))))

/-- `get_git_branch()` from git.py: the live VCS query, with every
exception swallowed to `None`. -/
def get_git_branch (vcs : Vcs) : Option String :=
  match run_command vcs ["git", "rev-parse", "--abbrev-ref", "HEAD"] with
  | .ok s => some s
  | .error _ => none

/-- `git_branch()` from git.py. -/
def git_branch (env : Env) (vcs : Vcs) : Option String :=
  if truthy (envGet env "GITHUB_ACTIONS") then get_github_branch env
  else pyOr (get_ci_branch env) (get_git_branch vcs)

/-! ### `git_info` -/

/-- The `head` mapping built by `git_info`; in the fallback path each field
is an environment lookup and may be absent. -/
structure Head where
  id : Option String
  author_name : Option String
  author_email : Option String
  committer_name : Option String
  committer_email : Option String
  message : Option String
deriving DecidableEq

/-- One entry of the `remotes` sequence. -/
structure Remote where
  name : Option String
  url : Option String
deriving DecidableEq

/-- The value under the `git` key of a non-empty `git_info` result. -/
structure GitContext where
  branch : Option String
  head : Head
  remotes : List Remote
deriving DecidableEq

/-- Exceptions that can escape `git_info` (the remote-line parsing indexes
`line.split()[0]` and `[1]`, which is outside the `except` clause). -/
inductive PyErr where
  | indexError
deriving DecidableEq

/-- Classification of a failure inside the `try` block of `git_info`:
`recoverable` is the caught pair `(CoverallsException, OSError)`;
`fatal` is an `IndexError` from remote-line parsing, which is not caught. -/
inductive TryErr where
  | recoverable
  | fatal
deriving DecidableEq

/-- Result of `git_info`: the returned mapping (`none` models `{}`) plus
whether the recoverable warning was logged. -/
structure GitInfoOut where
  ctx : Option GitContext
  warned : Bool
deriving DecidableEq

/-- One line of `git remote -v` output: `line.split()[0]` and
`line.split()[1]`; fewer than two tokens raises `IndexError`. -/
def parseRemoteLine (line : String) : Except PyErr Remote :=
  match pyWsSplit line with
  | t0 :: t1 :: _ => .ok ⟨some t0, some t1⟩
  | _ => .error .indexError

/-- The remotes comprehension of `git_info`: keep the `(fetch)` lines of the
(stripped) `git remote -v` output and split each into a name/url pair. -/
def parseRemotes (out : String) : Except PyErr (List Remote) :=
  ((pySplitlines out).filter (fun l => pyContains l "(fetch)")).mapM parseRemoteLine

/-- The `try` block of `git_info`.  In the source the eight subprocess
calls run in sequence and the first raise aborts the rest; as each call is
a pure function of the oracle here, the simultaneous match yields the same
result: any caught failure among them selects the fallback, and an
`IndexError` in remote parsing (reachable only when all calls succeeded)
is fatal.  `git_branch` never raises, so its position does not matter. -/
def tryBody (env : Env) (vcs : Vcs) : Except TryErr GitContext :=
  match gitlog vcs "%H", gitlog vcs "%aN", gitlog vcs "%ae",
        gitlog vcs "%cN", gitlog vcs "%ce", gitlog vcs "%s",
        run_command vcs ["git", "remote", "-v"] with
  | .ok hid, .ok han, .ok hae, .ok hcn, .ok hce, .ok hmsg, .ok remOut =>
      match parseRemotes remOut with
      | .ok remotes =>
          .ok ⟨git_branch env vcs,
               ⟨some hid, some han, some hae, some hcn, some hce, some hmsg⟩,
               remotes⟩
      | .error _ => .error .fatal
  | _, _, _, _, _, _, _ => .error .recoverable

/-- The fallback `head` mapping of `git_info`, built from environment
variables. -/
def fallbackHead (env : Env) : Head :=
  ⟨envGet env "GIT_ID", envGet env "GIT_AUTHOR_NAME",
   envGet env "GIT_AUTHOR_EMAIL", envGet env "GIT_COMMITTER_NAME",
   envGet env "GIT_COMMITTER_EMAIL", envGet env "GIT_MESSAGE"⟩

/-- Python `all(head.values())` on the six head fields. -/
def headAllTruthy (h : Head) : Bool :=
  truthy h.id && truthy h.author_name && truthy h.author_email &&
  truthy h.committer_name && truthy h.committer_email && truthy h.message

/-- `git_info()` from git.py.  On a caught failure the head, branch and
remotes come from the `GIT_*` variables; if not all six head values are
truthy the warning is logged and `{}` is returned. -/
def git_info (env : Env) (vcs : Vcs) : Except PyErr GitInfoOut :=
  match tryBody env vcs with
  | .ok ctx => .ok ⟨some ctx, false⟩
  | .error .fatal => .error .indexError
  | .error .recoverable =>
      let head := fallbackHead env
      let remotes : List Remote := [⟨envGet env "GIT_REMOTE", envGet env "GIT_URL"⟩]
      if headAllTruthy head then
        .ok ⟨some ⟨envGet env "GIT_BRANCH", head, remotes⟩, false⟩
      else
        .ok ⟨none, true⟩

/-! ### The CLI (`cli.py`) -/

/-- The docopt option mapping, restricted to the fields `main` and
`setup_coveralls` consult for dispatch and token requirement. -/
structure Options where
  debug : Bool
  verbose : Bool
  merge : Option String
  output : Option String
  submit : Option String
  finish : Bool
deriving DecidableEq

/-- The token requirement computed by `setup_coveralls`:
`not options['debug'] and not options['--output']`. -/
def token_required (o : Options) : Bool :=
  !o.debug && !(truthy o.output)

/-- Keys of the `action_handlers` mapping of `main`, in insertion order. -/
inductive ActionKey where
  | merge
  | debug
  | output
  | submit
  | finish
deriving DecidableEq

/-- Iteration order of the `action_handlers` dict (insertion order). -/
def action_order : List ActionKey :=
  [.merge, .debug, .output, .submit, .finish]

/-- Truthiness of `options.get(action)` for each handler key. -/
def optionPresent (o : Options) : ActionKey → Bool
  | .merge => truthy o.merge
  | .debug => o.debug
  | .output => truthy o.output
  | .submit => truthy o.submit
  | .finish => o.finish

/-- Observable side effect of each handler, and of `handle_default`. -/
inductive Effect where
  | mergeReport (file : String)
  | debugDryRun
  | writeReport (file : String)
  | submitReport (file : String)
  | parallelFinish
  | defaultSubmit
deriving DecidableEq

/-- The side effect of the handler bound to each key in `action_handlers`. -/
def handlerEffect (o : Options) : ActionKey → Effect
  | .merge => .mergeReport (o.merge.getD "")
  | .debug => .debugDryRun
  | .output => .writeReport (o.output.getD "")
  | .submit => .submitReport (o.submit.getD "")
  | .finish => .parallelFinish

/-- The dispatch loop of `main`: the first key whose option is truthy has
its handler run and the function returns; with no key present,
`handle_default` runs. -/
def main_effects (o : Options) : List Effect :=
  match List.find? (optionPresent o) action_order with
  | some k => [handlerEffect o k]
  | none => [.defaultSubmit]

/-- Exception classes distinguished by the `except` clauses of `main`. -/
inductive PyExn where
  | keyboardInterrupt
  | exception (msg : String)
deriving DecidableEq

/-- How the process run ends: falling off `main` (exit status 0) or an
explicit `sys.exit(1)`. -/
inductive ExitStatus where
  | normal
  | exitCode (code : Nat)
deriving DecidableEq

/-- Log lines produced by the `except` clauses of `main`. -/
inductive LogLine where
  | infoAborted
  | errorLogged (msg : String)
deriving DecidableEq

/-- The top-level `try`/`except` of `main`, over the outcome of the guarded
body (`setup_coveralls` plus dispatch): a `KeyboardInterrupt` yields the
informational `Aborted` line and a normal return; any other exception is
logged and the process exits with status 1. -/
def main_catch (body : Except PyExn (List Effect)) : ExitStatus × List LogLine :=
  match body with
  | .ok _ => (.normal, [])
  | .error .keyboardInterrupt => (.normal, [.infoAborted])
  | .error (.exception m) => (.exitCode 1, [.errorLogged m])

/-! ### Concrete collaborator behaviours and environments used as inputs -/

/-- A VCS collaborator on which every command exits non-zero. -/
def vcsFailAll : Vcs := fun _ => .calledProcessError "fatal: not a git repository"

/-- A VCS collaborator on which every command succeeds, with a well-formed
two-line `git remote -v` listing. -/
def vcsOkRemotes : Vcs := fun args =>
  if args = ["git", "remote", "-v"]
  then .ok "origin\thttps://example.com/r.git (fetch)\norigin\thttps://example.com/r.git (push)"
  else .ok "val"

/-- A VCS collaborator on which every command succeeds but the
`git remote -v` stdout is a single `(fetch)` line with one token. -/
def vcsOneTokenRemote : Vcs := fun args =>
  if args = ["git", "remote", "-v"] then .ok "(fetch)" else .ok "deadbeef"

/-- A VCS collaborator whose stdout carries leading whitespace. -/
def vcsLeadWs : Vcs := fun _ => .ok " x\n"

/-- An environment with all eight `GIT_*` fallback variables set. -/
def envAll8 : Env :=
  [("GIT_ID", "abc123"), ("GIT_AUTHOR_NAME", "A"), ("GIT_AUTHOR_EMAIL", "a@x"),
   ("GIT_COMMITTER_NAME", "C"), ("GIT_COMMITTER_EMAIL", "c@x"), ("GIT_MESSAGE", "msg"),
   ("GIT_REMOTE", "origin"), ("GIT_URL", "https://example.com/r.git")]

/-- An environment with the six head variables set but `GIT_REMOTE` and
`GIT_URL` unset. -/
def envSixHead : Env :=
  [("GIT_ID", "abc123"), ("GIT_AUTHOR_NAME", "A"), ("GIT_AUTHOR_EMAIL", "a@x"),
   ("GIT_COMMITTER_NAME", "C"), ("GIT_COMMITTER_EMAIL", "c@x"), ("GIT_MESSAGE", "msg")]

/-- An environment with two non-GitHub provider branch variables set. -/
def envCircleTravis : Env := [("CIRCLE_BRANCH", "dev"), ("TRAVIS_BRANCH", "main")]

/-! ### Helper notions and lemmas -/

/-- Whether a command outcome is one of the two failure classes. -/
def cmdFails : CmdResult → Bool
  | .ok _ => false
  | .calledProcessError _ => true
  | .osError _ => true

/-- Whether one `git remote -v` output line can be split into a name/url
pair (i.e. `line.split()` has at least two tokens). -/
def remoteLineOk (line : String) : Bool :=
  match pyWsSplit line with
  | _ :: _ :: _ => true
  | _ => false

/-- Whether a command outcome, used as `git remote -v` output, keeps the
remotes comprehension of `git_info` from raising: every `(fetch)` line of
the stripped stdout must split into at least two tokens.  Failures are
harmless here because they select the environment fallback. -/
def remoteLinesOk : CmdResult → Bool
  | .ok out =>
      ((pySplitlines (pyStrip out)).filter (fun l => pyContains l "(fetch)")).all remoteLineOk
  | .calledProcessError _ => true
  | .osError _ => true

/-- Stated from the claim's words, for comparison with the source: strip
trailing whitespace only. -/
def spec_rstrip (s : String) : String :=
  ⟨(s.data.reverse.dropWhile isPyWs).reverse⟩

/-- When the first `gitlog` call fails, the whole `try` block of `git_info`
takes the caught-exception path. -/
lemma tryBody_of_first_fail (env : Env) (vcs : Vcs)
    (h : cmdFails (vcs (gitlogArgs "%H")) = true) :
    tryBody env vcs = .error .recoverable := by
  unfold tryBody gitlog run_command
  rcases hv : vcs (gitlogArgs "%H") with s | m | m
  · rw [hv] at h; simp [cmdFails] at h
  · rfl
  · rfl

/-! ### Claims C1 and C3: the environment fallback of `git_info` -/

/-- C1 (amended): when every VCS command invocation fails and at least one
of the SIX head fallback variables (`GIT_ID`, `GIT_AUTHOR_NAME`,
`GIT_AUTHOR_EMAIL`, `GIT_COMMITTER_NAME`, `GIT_COMMITTER_EMAIL`,
`GIT_MESSAGE`) is unset or empty, `git_info` logs the recoverable warning
and returns the empty context `{}`.  `GIT_REMOTE` and `GIT_URL` play no
role in this check. -/
theorem git_info_fallback_incomplete_returns_empty (env : Env) (vcs : Vcs)
    (hfail : ∀ args, cmdFails (vcs args) = true)
    (hmiss : headAllTruthy (fallbackHead env) = false) :
    git_info env vcs = .ok ⟨none, true⟩ := by
  have ht := tryBody_of_first_fail env vcs (hfail _)
  unfold git_info
  rw [ht]
  simp [hmiss]

/-- Witness for the amended C1 at a concrete input: the empty environment
and an always-failing collaborator. -/
theorem git_info_fallback_incomplete_returns_empty_witness :
    git_info [] vcsFailAll = .ok ⟨none, true⟩ :=
  git_info_fallback_incomplete_returns_empty [] vcsFailAll (fun _ => rfl) (by decide)

/-- C1 (counterexample to the claim as stated): with all VCS commands
failing, the six head variables set but `GIT_REMOTE` and `GIT_URL` unset
(so the eight are only partially set), `git_info` does NOT return `{}` and
does not warn: it returns a populated context whose single remotes entry
has `None` for both name and url. -/
theorem git_info_incomplete_eight_not_empty :
    envGet envSixHead "GIT_REMOTE" = none ∧
    envGet envSixHead "GIT_URL" = none ∧
    git_info envSixHead vcsFailAll =
      .ok ⟨some ⟨none,
        ⟨some "abc123", some "A", some "a@x", some "C", some "c@x", some "msg"⟩,
        [⟨none, none⟩]⟩, false⟩ ∧
    GitInfoOut.mk (some ⟨none,
        ⟨some "abc123", some "A", some "a@x", some "C", some "c@x", some "msg"⟩,
        [⟨none, none⟩]⟩) false ≠ GitInfoOut.mk none true :=
  ⟨rfl, rfl, rfl, by decide⟩

/-- C3: when every VCS command invocation fails and all eight fallback
variables are set to non-empty values, `git_info` returns a context whose
head fields are exactly the six `GIT_*` head variable values and whose
remotes sequence is exactly the one entry built from `GIT_REMOTE` and
`GIT_URL`; no warning is logged. -/
theorem git_info_fallback_full_env (env : Env) (vcs : Vcs)
    (hfail : ∀ args, cmdFails (vcs args) = true)
    (h1 : truthy (envGet env "GIT_ID") = true)
    (h2 : truthy (envGet env "GIT_AUTHOR_NAME") = true)
    (h3 : truthy (envGet env "GIT_AUTHOR_EMAIL") = true)
    (h4 : truthy (envGet env "GIT_COMMITTER_NAME") = true)
    (h5 : truthy (envGet env "GIT_COMMITTER_EMAIL") = true)
    (h6 : truthy (envGet env "GIT_MESSAGE") = true)
    (h7 : truthy (envGet env "GIT_REMOTE") = true)
    (h8 : truthy (envGet env "GIT_URL") = true) :
    git_info env vcs =
      .ok ⟨some ⟨envGet env "GIT_BRANCH",
        ⟨envGet env "GIT_ID", envGet env "GIT_AUTHOR_NAME",
         envGet env "GIT_AUTHOR_EMAIL", envGet env "GIT_COMMITTER_NAME",
         envGet env "GIT_COMMITTER_EMAIL", envGet env "GIT_MESSAGE"⟩,
        [⟨envGet env "GIT_REMOTE", envGet env "GIT_URL"⟩]⟩, false⟩ := by
  have ht := tryBody_of_first_fail env vcs (hfail _)
  unfold git_info
  rw [ht]
  have hall : headAllTruthy (fallbackHead env) = true := by
    simp [headAllTruthy, fallbackHead, h1, h2, h3, h4, h5, h6]
  simp only [fallbackHead] at hall
  simp [fallbackHead, hall]

/-- Witness for C3 at a concrete input: all eight variables set, every
command failing. -/
theorem git_info_fallback_full_env_witness :
    git_info envAll8 vcsFailAll =
      .ok ⟨some ⟨none,
        ⟨some "abc123", some "A", some "a@x", some "C", some "c@x", some "msg"⟩,
        [⟨some "origin", some "https://example.com/r.git"⟩]⟩, false⟩ := by
  have h := git_info_fallback_full_env envAll8 vcsFailAll (fun _ => rfl)
    (by decide) (by decide) (by decide) (by decide) (by decide) (by decide)
    (by decide) (by decide)
  exact h.trans (by rfl)

/-! ### Claim C8: exception safety of `git_info` -/

/-- Mapping `parseRemoteLine` over lines that all split into two tokens
cannot raise. -/
lemma mapM_parseRemoteLine_ok (ls : List String) (h : ls.all remoteLineOk = true) :
    ∃ rs, ls.mapM parseRemoteLine = Except.ok rs := by
  induction ls with
  | nil => exact ⟨[], rfl⟩
  | cons l ls ih =>
      rw [List.all_cons, Bool.and_eq_true] at h
      obtain ⟨rs, hrs⟩ := ih h.2
      have hl : ∃ t0 t1 t, pyWsSplit l = t0 :: t1 :: t := by
        have := h.1
        unfold remoteLineOk at this
        rcases hsp : pyWsSplit l with _ | ⟨t0, _ | ⟨t1, t⟩⟩
        · rw [hsp] at this; simp at this
        · rw [hsp] at this; simp at this
        · exact ⟨t0, t1, t, rfl⟩
      obtain ⟨t0, t1, t, hsp⟩ := hl
      refine ⟨⟨some t0, some t1⟩ :: rs, ?_⟩
      have hpl : parseRemoteLine l = Except.ok ⟨some t0, some t1⟩ := by
        unfold parseRemoteLine
        rw [hsp]
      rw [List.mapM_cons, hpl, hrs]
      rfl

/-- The remotes comprehension cannot raise on well-formed output. -/
lemma parseRemotes_ok (out : String)
    (h : ((pySplitlines out).filter (fun l => pyContains l "(fetch)")).all remoteLineOk = true) :
    ∃ rs, parseRemotes out = Except.ok rs := by
  unfold parseRemotes
  exact mapM_parseRemoteLine_ok _ h

/-- The `try` block of `git_info` reaches the uncaught `IndexError` only
through a malformed `(fetch)` line of a successful `git remote -v`. -/
lemma tryBody_ne_fatal (env : Env) (vcs : Vcs)
    (hwf : remoteLinesOk (vcs ["git", "remote", "-v"]) = true) :
    tryBody env vcs ≠ .error .fatal := by
  unfold tryBody
  split
  · rename_i hid han hae hcn hce hmsg remOut e1 e2 e3 e4 e5 e6 e7
    have hout : ∃ out, vcs ["git", "remote", "-v"] = .ok out ∧ remOut = pyStrip out := by
      unfold run_command at e7
      rcases hv : vcs ["git", "remote", "-v"] with s | m | m <;> rw [hv] at e7
      · exact ⟨s, rfl, (Except.ok.inj e7).symm⟩
      · exact Except.noConfusion e7
      · exact Except.noConfusion e7
    obtain ⟨out, hvo, hro⟩ := hout
    rw [hvo] at hwf
    simp only [remoteLinesOk] at hwf
    obtain ⟨rs, hrs⟩ := parseRemotes_ok (pyStrip out) hwf
    rw [hro, hrs]
    intro hc
    exact Except.noConfusion hc
  · intro hc
    exact TryErr.noConfusion (Except.error.inj hc)

/-- C8 (counterexample to the claim as stated): the claim quantifies over
arbitrary stdout contents, but when every command succeeds and the
`git remote -v` stdout is the single line `(fetch)` (one token), the
remotes comprehension indexes past the end of `line.split()` and an
uncaught `IndexError` escapes `git_info`. -/
theorem git_info_raises_on_malformed_remote :
    git_info [] vcsOneTokenRemote = .error .indexError := rfl

/-- C8 (amended): `git_info` recovers every VCS command-invocation failure
(`CoverallsException` from a non-zero exit, `OSError` from the process
facility) via the environment fallback and raises nothing from them; it
never raises provided every `(fetch)` line of a successful `git remote -v`
stdout splits into at least two whitespace-separated tokens. -/
theorem git_info_never_raises (env : Env) (vcs : Vcs)
    (hwf : remoteLinesOk (vcs ["git", "remote", "-v"]) = true) :
    (git_info env vcs).isOk = true := by
  unfold git_info
  rcases ht : tryBody env vcs with e | ctx
  · cases e
    · cases hh : headAllTruthy (fallbackHead env) <;> simp [hh, Except.isOk, Except.toBool]
    · exact absurd ht (tryBody_ne_fatal env vcs hwf)
  · rfl

/-- Witness for the amended C8 at a concrete input: a collaborator with a
well-formed two-line remote listing. -/
theorem git_info_never_raises_witness :
    (git_info [] vcsOkRemotes).isOk = true :=
  git_info_never_raises [] vcsOkRemotes (by decide)

/-! ### Claim C9: the output processing of `run_command` -/

/-- The head of `dropWhile p l` does not satisfy `p`. -/
lemma head?_dropWhile_false (p : Char → Bool) (l : List Char) (c : Char)
    (h : (l.dropWhile p).head? = some c) : p c = false := by
  have hk := List.head?_dropWhile_not p l
  rw [h] at hk
  exact hk

/-- A non-empty suffix ends where the whole list ends. -/
lemma getLast?_of_suffix {α : Type} {r l : List α} (h : r <:+ l) (c : α)
    (hc : r.getLast? = some c) : l.getLast? = some c := by
  have hne : r ≠ [] := by
    intro hr
    rw [hr] at hc
    exact Option.noConfusion hc
  obtain ⟨u, rfl⟩ := h
  rw [List.getLast?_append_of_ne_nil u hne]
  exact hc

/-- Splitting off the trailing segment satisfying `p`. -/
lemma strip_right_decomp (p : Char → Bool) (m : List Char) :
    m = (m.reverse.dropWhile p).reverse ++ (m.reverse.takeWhile p).reverse := by
  conv_lhs => rw [← List.reverse_reverse m]
  conv_lhs => rw [← List.takeWhile_append_dropWhile p m.reverse]
  rw [List.reverse_append]

/-- A list is its leading `p`-segment, its two-sided strip, and its
trailing `p`-segment, in that order. -/
lemma strip_decomp (p : Char → Bool) (l : List Char) :
    l = l.takeWhile p ++ ((l.dropWhile p).reverse.dropWhile p).reverse
          ++ ((l.dropWhile p).reverse.takeWhile p).reverse := by
  rw [List.append_assoc, ← strip_right_decomp p (l.dropWhile p),
    List.takeWhile_append_dropWhile]

/-- The first character of the two-sided strip does not satisfy `p`. -/
lemma strip_head_not (p : Char → Bool) (l : List Char) (c : Char)
    (h : (((l.dropWhile p).reverse.dropWhile p).reverse).head? = some c) :
    p c = false := by
  rw [List.head?_reverse] at h
  have hsuf : (l.dropWhile p).reverse.dropWhile p <:+ (l.dropWhile p).reverse :=
    List.dropWhile_suffix p
  have h2 : ((l.dropWhile p).reverse).getLast? = some c := getLast?_of_suffix hsuf c h
  rw [List.getLast?_reverse] at h2
  exact head?_dropWhile_false p l c h2

/-- The last character of a right strip does not satisfy `p`. -/
lemma strip_getLast_not (p : Char → Bool) (m : List Char) (c : Char)
    (h : ((m.dropWhile p).reverse).getLast? = some c) : p c = false := by
  rw [List.getLast?_reverse] at h
  exact head?_dropWhile_false p m c h

/-- C9 (amended): on a successful invocation `run_command` returns the
stdout with BOTH leading and trailing whitespace removed (Python
`str.strip()`): the stdout decomposes as whitespace, then the returned
text, then whitespace, and the returned text neither starts nor ends with
a whitespace character. -/
theorem run_command_strip_bounds (vcs : Vcs) (args : List String) (out t : String)
    (hok : vcs args = .ok out) (ht : run_command vcs args = .ok t) :
    ∃ a b : List Char,
      out.data = a ++ t.data ++ b ∧
      (∀ c ∈ a, isPyWs c = true) ∧
      (∀ c ∈ b, isPyWs c = true) ∧
      (∀ c, t.data.head? = some c → isPyWs c = false) ∧
      (∀ c, t.data.getLast? = some c → isPyWs c = false) := by
  have hts : t = pyStrip out := by
    unfold run_command at ht
    rw [hok] at ht
    exact (Except.ok.inj ht).symm
  subst hts
  refine ⟨out.data.takeWhile isPyWs,
    ((out.data.dropWhile isPyWs).reverse.takeWhile isPyWs).reverse, ?_, ?_, ?_, ?_, ?_⟩
  · exact strip_decomp isPyWs out.data
  · intro c hc
    exact List.mem_takeWhile_imp hc
  · intro c hc
    rw [List.mem_reverse] at hc
    exact List.mem_takeWhile_imp hc
  · intro c hc
    exact strip_head_not isPyWs out.data c hc
  · intro c hc
    exact strip_getLast_not isPyWs (out.data.dropWhile isPyWs).reverse c hc

/-- Witness for the amended C9 at a concrete input. -/
theorem run_command_strip_bounds_witness :
    ∃ a b : List Char,
      (" x\n" : String).data = a ++ ("x" : String).data ++ b ∧
      (∀ c ∈ a, isPyWs c = true) ∧
      (∀ c ∈ b, isPyWs c = true) ∧
      (∀ c, ("x" : String).data.head? = some c → isPyWs c = false) ∧
      (∀ c, ("x" : String).data.getLast? = some c → isPyWs c = false) :=
  run_command_strip_bounds vcsLeadWs ["git"] " x\n" "x" rfl rfl

/-- C9 (counterexample to the claim as stated): on stdout `" x\n"` the
source returns `"x"` (Python `.strip()` removes the LEADING space too),
not the trailing-only strip `" x"` the claim describes. -/
theorem run_command_not_trailing_only :
    run_command vcsLeadWs ["git"] = .ok "x" ∧
    spec_rstrip " x\n" = " x" ∧
    ("x" : String) ≠ " x" :=
  ⟨rfl, by decide, by decide⟩

/-! ### Claims C4 and C5: branch resolution -/

/-- C4: with `GITHUB_ACTIONS` not set (or empty), the branch cascade
consults exactly the seven provider variables of `ciVars` in source order,
and the first truthy value wins, with neither later providers nor the live
VCS query consulted. -/
theorem ci_branch_priority (env : Env) (vcs : Vcs)
    (hga : truthy (envGet env "GITHUB_ACTIONS") = false)
    (i : Fin ciVars.length)
    (hi : truthy (envGet env (ciVars.get i)) = true)
    (hprev : ∀ j : Fin ciVars.length, j < i → truthy (envGet env (ciVars.get j)) = false) :
    git_branch env vcs = envGet env (ciVars.get i) := by
  unfold git_branch get_ci_branch
  rw [hga]
  fin_cases i <;> simp only [ciVars, List.get] at hi hprev ⊢
  · simp [pyOr, hi]
  · have h0 := hprev ⟨0, by decide⟩ (by decide)
    simp only [ciVars, List.get] at h0
    simp [pyOr, hi, h0]
  · have h0 := hprev ⟨0, by decide⟩ (by decide)
    have h1 := hprev ⟨1, by decide⟩ (by decide)
    simp only [ciVars, List.get] at h0 h1
    simp [pyOr, hi, h0, h1]
  · have h0 := hprev ⟨0, by decide⟩ (by decide)
    have h1 := hprev ⟨1, by decide⟩ (by decide)
    have h2 := hprev ⟨2, by decide⟩ (by decide)
    simp only [ciVars, List.get] at h0 h1 h2
    simp [pyOr, hi, h0, h1, h2]
  · have h0 := hprev ⟨0, by decide⟩ (by decide)
    have h1 := hprev ⟨1, by decide⟩ (by decide)
    have h2 := hprev ⟨2, by decide⟩ (by decide)
    have h3 := hprev ⟨3, by decide⟩ (by decide)
    simp only [ciVars, List.get] at h0 h1 h2 h3
    simp [pyOr, hi, h0, h1, h2, h3]
  · have h0 := hprev ⟨0, by decide⟩ (by decide)
    have h1 := hprev ⟨1, by decide⟩ (by decide)
    have h2 := hprev ⟨2, by decide⟩ (by decide)
    have h3 := hprev ⟨3, by decide⟩ (by decide)
    have h4 := hprev ⟨4, by decide⟩ (by decide)
    simp only [ciVars, List.get] at h0 h1 h2 h3 h4
    simp [pyOr, hi, h0, h1, h2, h3, h4]
  · have h0 := hprev ⟨0, by decide⟩ (by decide)
    have h1 := hprev ⟨1, by decide⟩ (by decide)
    have h2 := hprev ⟨2, by decide⟩ (by decide)
    have h3 := hprev ⟨3, by decide⟩ (by decide)
    have h4 := hprev ⟨4, by decide⟩ (by decide)
    have h5 := hprev ⟨5, by decide⟩ (by decide)
    simp only [ciVars, List.get] at h0 h1 h2 h3 h4 h5
    simp [pyOr, hi, h0, h1, h2, h3, h4, h5]

/-- Witness for C4 at the concrete input of the claim: with
`CIRCLE_BRANCH=dev` and `TRAVIS_BRANCH=main` both set (and no GitHub
environment), the branch resolves to `dev`. -/
theorem ci_branch_priority_witness :
    git_branch envCircleTravis vcsFailAll = some "dev" := by
  have h := ci_branch_priority envCircleTravis vcsFailAll (by decide) ⟨3, by decide⟩
    (by decide) (by decide)
  exact h.trans (by decide)

/-- A truthy `GITHUB_REF` with a recognized ref shape resolves to its last
split piece. -/
lemma get_github_branch_of_ref (env : Env) (r : String)
    (h : envGet env "GITHUB_REF" = some r)
    (hc : (!(r == "") && (pyStartsWith r "refs/heads/" || pyStartsWith r "refs/tags/")) = true) :
    get_github_branch env = some (pySplit2Last r) := by
  unfold get_github_branch
  rw [h]
  show (if (!(r == "") && (pyStartsWith r "refs/heads/" || pyStartsWith r "refs/tags/")) = true
      then some (pySplit2Last r) else envGet env "GITHUB_HEAD_REF") = some (pySplit2Last r)
  rw [if_pos hc]

/-- Without `GITHUB_REF`, the GitHub resolver falls back to
`GITHUB_HEAD_REF`. -/
lemma get_github_branch_of_no_ref (env : Env)
    (h : envGet env "GITHUB_REF" = none) :
    get_github_branch env = envGet env "GITHUB_HEAD_REF" := by
  unfold get_github_branch
  rw [h]

/-- C5: under `GITHUB_ACTIONS`, `GITHUB_REF=refs/heads/main` resolves the
branch to `main`, `GITHUB_REF=refs/tags/v1.0` resolves it to `v1.0`, and
with `GITHUB_REF` unset but `GITHUB_HEAD_REF=feature-x` it resolves to
`feature-x`. -/
theorem github_branch_resolution (env : Env) (vcs : Vcs)
    (hga : truthy (envGet env "GITHUB_ACTIONS") = true) :
    (envGet env "GITHUB_REF" = some "refs/heads/main" → git_branch env vcs = some "main") ∧
    (envGet env "GITHUB_REF" = some "refs/tags/v1.0" → git_branch env vcs = some "v1.0") ∧
    (envGet env "GITHUB_REF" = none → envGet env "GITHUB_HEAD_REF" = some "feature-x" →
      git_branch env vcs = some "feature-x") := by
  refine ⟨?_, ?_, ?_⟩
  · intro h
    unfold git_branch
    rw [hga, if_pos rfl, get_github_branch_of_ref env _ h (by decide)]
    decide
  · intro h
    unfold git_branch
    rw [hga, if_pos rfl, get_github_branch_of_ref env _ h (by decide)]
    decide
  · intro h1 h2
    unfold git_branch
    rw [hga, if_pos rfl, get_github_branch_of_no_ref env h1, h2]

/-- Witness for C5 at three concrete environments. -/
theorem github_branch_resolution_witness :
    git_branch [("GITHUB_ACTIONS", "true"), ("GITHUB_REF", "refs/heads/main")] vcsFailAll
      = some "main" ∧
    git_branch [("GITHUB_ACTIONS", "true"), ("GITHUB_REF", "refs/tags/v1.0")] vcsFailAll
      = some "v1.0" ∧
    git_branch [("GITHUB_ACTIONS", "true"), ("GITHUB_HEAD_REF", "feature-x")] vcsFailAll
      = some "feature-x" :=
  ⟨(github_branch_resolution _ vcsFailAll (by decide)).1 (by decide),
   (github_branch_resolution _ vcsFailAll (by decide)).2.1 (by decide),
   (github_branch_resolution _ vcsFailAll (by decide)).2.2 (by decide) (by decide)⟩

/-! ### Claims C6, C2, C7 and C10: the CLI orchestrator -/

/-- C6: exactly one handler runs per invocation; the five options are
checked in the fixed order merge, debug, output, submit, finish, the first
present wins, and the default submission runs exactly when none of the
five is present. -/
theorem dispatch_modes (o : Options) :
    (main_effects o).length = 1 ∧
    (truthy o.merge = true → main_effects o = [.mergeReport (o.merge.getD "")]) ∧
    (truthy o.merge = false → o.debug = true → main_effects o = [.debugDryRun]) ∧
    (truthy o.merge = false → o.debug = false → truthy o.output = true →
      main_effects o = [.writeReport (o.output.getD "")]) ∧
    (truthy o.merge = false → o.debug = false → truthy o.output = false →
      truthy o.submit = true → main_effects o = [.submitReport (o.submit.getD "")]) ∧
    (truthy o.merge = false → o.debug = false → truthy o.output = false →
      truthy o.submit = false → o.finish = true → main_effects o = [.parallelFinish]) ∧
    (main_effects o = [.defaultSubmit] ↔
      truthy o.merge = false ∧ o.debug = false ∧ truthy o.output = false ∧
      truthy o.submit = false ∧ o.finish = false) := by
  rcases hm : truthy o.merge <;> rcases hd : o.debug <;> rcases ho : truthy o.output <;>
    rcases hs : truthy o.submit <;> rcases hf : o.finish <;>
    simp [main_effects, action_order, optionPresent, handlerEffect, List.find?,
      hm, hd, ho, hs, hf]

/-- Witness for C6 at two concrete option mappings: a bare invocation runs
the default submission; an invocation with both `--merge` and `--finish`
runs only the merge handler. -/
theorem dispatch_modes_witness :
    main_effects ⟨false, false, none, none, none, false⟩ = [.defaultSubmit] ∧
    main_effects ⟨false, false, some "m.json", none, none, true⟩ = [.mergeReport "m.json"] :=
  ⟨(dispatch_modes ⟨false, false, none, none, none, false⟩).2.2.2.2.2.2.mpr
      (by decide),
   (dispatch_modes ⟨false, false, some "m.json", none, none, true⟩).2.1 (by decide)⟩

/-- C2 (behaviour of the code at the failing input): with `--merge` given,
the dispatch loop runs only the merge handler and returns; no fresh report
is assembled and dispatched in the same run, against both the spec and the
option's own help text ("Merge report from file when submitting."). -/
theorem merge_mode_skips_submission :
    main_effects ⟨false, false, some "extra.json", none, none, false⟩
      = [.mergeReport "extra.json"] ∧
    Effect.defaultSubmit ∉ main_effects ⟨false, false, some "extra.json", none, none, false⟩ := by
  decide

/-- C7: any exception other than an interrupt that escapes a stage of
`main` is caught at the top level, logged, and ends the process with exit
status 1; a `KeyboardInterrupt` instead produces only the informational
`Aborted` line and a normal (zero) termination. -/
theorem main_exception_handling (body : Except PyExn (List Effect)) :
    (∀ m, body = .error (.exception m) →
      main_catch body = (.exitCode 1, [.errorLogged m])) ∧
    (body = .error .keyboardInterrupt → main_catch body = (.normal, [.infoAborted])) := by
  constructor
  · intro m hb
    rw [hb]
    rfl
  · intro hb
    rw [hb]
    rfl

/-- Witness for C7 at two concrete outcomes. -/
theorem main_exception_handling_witness :
    main_catch (.error (.exception "boom")) = (.exitCode 1, [.errorLogged "boom"]) ∧
    main_catch (.error .keyboardInterrupt) = (.normal, [.infoAborted]) :=
  ⟨(main_exception_handling (.error (.exception "boom"))).1 "boom" rfl,
   (main_exception_handling (.error .keyboardInterrupt)).2 rfl⟩

/-- C10 (amended): the token requirement handed to the `Coveralls`
constructor is enabled exactly when neither the `debug` command nor the
`--output` option is present in the raw options — independently of which
handler the dispatch loop then runs. -/
theorem token_required_iff (o : Options) :
    token_required o = true ↔ (o.debug = false ∧ truthy o.output = false) := by
  rcases hd : o.debug <;> rcases ho : truthy o.output <;>
    simp [token_required, hd, ho]

/-- Witness for the amended C10 at a concrete input. -/
theorem token_required_iff_witness :
    token_required ⟨false, false, none, none, some "r.json", false⟩ = true :=
  (token_required_iff ⟨false, false, none, none, some "r.json", false⟩).mpr (by decide)

/-- C10 (counterexample to the claim as stated): with both `--merge` and
`--output` present the run is a Merge run (the merge handler wins the
dispatch), yet the token requirement is disabled because `--output` is
present — the claim, which ties the requirement to the selected mode and
asserts it is enabled for merge runs, fails here. -/
theorem token_required_merge_run_disabled :
    main_effects ⟨false, false, some "m.json", some "out.json", none, false⟩
      = [.mergeReport "m.json"] ∧
    token_required ⟨false, false, some "m.json", some "out.json", none, false⟩ = false := by
  decide
